import Mathlib

/-!
Verification development for the circle-playground repository, a testing
harness for the Circle Mint settlement API.  The TypeScript testers
(`src/account-and-transfers.ts`, `src/express-route.ts`) and the API client
(`src/circle-mint-client.ts`) are shallowly embedded: the remote API is an
oracle (`World`) supplying one response per client method, and every tester
operation is a pure function returning its result (`Except` over the thrown
error message, mirroring JS exceptions) together with the list of client
calls it issued, in order.  Entropy sources (`Date.now()`,
`crypto.randomUUID()`) are explicit parameters.
-/

namespace CirclePlayground

/-- Error values: JS exceptions carry a human-readable message string. -/
abbrev Msg := String

/-- Does the first character list begin with the second one? -/
def leadMatches : List Char → List Char → Bool
  | _, [] => true
  | [], _ :: _ => false
  | c :: cs, d :: ds => c = d && leadMatches cs ds

/-- Does the first character list contain the second as a contiguous block? -/
def containsChars : List Char → List Char → Bool
  | [], sub => leadMatches [] sub
  | c :: cs, sub => leadMatches (c :: cs) sub || containsChars cs sub

/-- JS `a.includes(b)`: substring containment on strings. -/
def includesSub (s sub : String) : Bool :=
  containsChars s.toList sub.toList

/-- JS `a.startsWith(b)`: prefix test on strings. -/
def jsStartsWith (s pre : String) : Bool :=
  leadMatches s.toList pre.toList

/-- JS truthiness of an optional string field: `undefined` and `""` are falsy. -/
def truthyStr : Option String → Bool
  | none => false
  | some s => decide (s ≠ "")

/-- JS `o ?? d` (nullish coalescing) on an optional string. -/
def nullishD (o : Option String) (d : String) : String := o.getD d

/-- JS `o || d` on an optional string: also replaces the empty string. -/
def orD (o : Option String) (d : String) : String :=
  match o with
  | none => d
  | some s => if s = "" then d else s

/-- Decimal digits of `n`, least significant first, with explicit fuel so the
definition is structural (fuel `n` suffices since `n` shrinks by `/ 10`). -/
def digitsRev : Nat → Nat → List Nat
  | 0, _ => []
  | _, 0 => []
  | fuel + 1, n + 1 => ((n + 1) % 10) :: digitsRev fuel ((n + 1) / 10)

/-- Decimal rendering of a natural number, as JS renders an integer
(`` `${Date.now()}` ``): most significant digit first, `0 ↦ "0"`. -/
def decimalString (n : Nat) : String :=
  if n = 0 then "0" else ((digitsRev n n).reverse.map Nat.digitChar).asString

/-- The JSON envelope fields the testers inspect on a single resource.
`beneficiaryAccountNumber` flattens `data.beneficiaryBank?.accountNumber`. -/
structure Resource where
  id : Option String := none
  address : Option String := none
  chain : Option String := none
  status : Option String := none
  trackingRef : Option String := none
  beneficiaryAccountNumber : Option String := none
  receiptAddressId : Option String := none
deriving DecidableEq, Repr

/-- A `{ data: ... }` response holding a single resource. -/
structure Envelope where
  data : Option Resource := none
deriving DecidableEq, Repr

/-- A `{ data: [...] }` response holding a list of resources. -/
structure ListEnvelope where
  data : Option (List Resource) := none
deriving DecidableEq, Repr

/-- Arguments of `client.createAddressBookRecipient`. -/
structure AddressBookParams where
  idempotencyKey : String
  chain : String
  address : String
  nickname : String
deriving DecidableEq, Repr

/-- Arguments of `client.createPayout` (crypto payout). -/
structure PayoutParams where
  idempotencyKey : String
  destinationType : String
  destinationId : String
  amount : String
  currency : String
deriving DecidableEq, Repr

/-- Arguments of `client.createWireBankAccount` (billing/bank address fields
are fixed literals in both testers and are omitted). -/
structure WireBankParams where
  idempotencyKey : String
  accountNumber : String
  routingNumber : String
deriving DecidableEq, Repr

/-- Arguments of `client.createDepositAddress`. -/
structure DepositAddressParams where
  idempotencyKey : String
  chain : String
  currency : String
deriving DecidableEq, Repr

/-- Arguments of `client.createMockWirePayment`. -/
structure MockWireParams where
  trackingRef : String
  amount : String
  accountNumber : String
deriving DecidableEq, Repr

/-- Arguments of `client.createMockBlockchainDeposit`. -/
structure MockChainParams where
  address : String
  amount : String
  chain : String
deriving DecidableEq, Repr

/-- Arguments of `client.createBusinessTransfer`. -/
structure BusinessTransferParams where
  idempotencyKey : String
  addressId : String
  amount : String
  currency : String
deriving DecidableEq, Repr

/-- Arguments of `client.createBusinessPayout`. -/
structure BusinessPayoutParams where
  idempotencyKey : String
  destinationType : String
  destinationId : String
  amount : String
  currency : String
deriving DecidableEq, Repr

/-- Arguments of `client.createExpressRoute`.  `receiptAddressId` is kept
optional: `runFullFlow` forwards `depositAddressId!`, which can in fact be
`undefined` (the field is then absent from the JSON body). -/
structure ExpressRouteReqParams where
  idempotencyKey : String
  receiptAddressId : Option String
  destinationBankAccountId : String
  destinationType : String
  currency : String
deriving DecidableEq, Repr

/-- One client-level network call, with the arguments the testers supply. -/
inductive ApiCall where
  | balancesPrimary
  | balancesSecondary
  | createAddressBookRecipient (p : AddressBookParams)
  | createPayout (p : PayoutParams)
  | createWireBankAccount (p : WireBankParams)
  | listWireBankAccounts
  | createDepositAddress (p : DepositAddressParams)
  | listBusinessDepositAddresses
  | createMockWirePayment (p : MockWireParams)
  | createMockBlockchainDeposit (p : MockChainParams)
  | createBusinessTransfer (p : BusinessTransferParams)
  | createBusinessPayout (p : BusinessPayoutParams)
  | createExpressRoute (p : ExpressRouteReqParams)
  | listExpressRoutes
  | getWireBankAccountInstructions (id : String)
deriving DecidableEq, Repr

/-- The remote API as a stateless oracle: for each client method, the parsed
response (`.ok`) or the message of the error the client throws (`.error`). -/
structure World where
  balancesPrimary : Except Msg Envelope
  balancesSecondary : Except Msg Envelope
  createAddressBookRecipient : AddressBookParams → Except Msg Envelope
  createPayout : PayoutParams → Except Msg Envelope
  createWireBankAccount : WireBankParams → Except Msg Envelope
  listWireBankAccounts : Except Msg ListEnvelope
  createDepositAddress : DepositAddressParams → Except Msg Envelope
  listBusinessDepositAddresses : Except Msg ListEnvelope
  createMockWirePayment : MockWireParams → Except Msg Envelope
  createMockBlockchainDeposit : MockChainParams → Except Msg Envelope
  createBusinessTransfer : BusinessTransferParams → Except Msg Envelope
  createBusinessPayout : BusinessPayoutParams → Except Msg Envelope
  createExpressRoute : ExpressRouteReqParams → Except Msg Envelope
  listExpressRoutes : Except Msg ListEnvelope
  getWireBankAccountInstructions : String → Except Msg Envelope

/-- The trace of client calls an operation issued, in order. -/
abbrev Trace := List ApiCall

/-- Keep an optional string only when it is JS-truthy (non-missing, non-empty);
models `const x = e; if (!x) ...` followed by uses of `x`. -/
def truthyOptStr : Option String → Option String
  | none => none
  | some s => if s = "" then none else some s

/-- Idempotency key `` `ab-${Date.now()}` `` of the address-book step of
`createTransfer`. -/
def abIdempotencyKey (now : Nat) : String := "ab-" ++ decimalString now

/-- Idempotency key `` `transfer-${Date.now()}` `` of the payout step of
`createTransfer`. -/
def transferIdempotencyKey (now : Nat) : String := "transfer-" ++ decimalString now

/-- Idempotency key `` `business-payout-${Date.now()}` `` of
`createBusinessPayout` in the account tester. -/
def businessPayoutIdempotencyKey (now : Nat) : String :=
  "business-payout-" ++ decimalString now

/-- Idempotency key of the operations that use `crypto.randomUUID()` directly. -/
def uuidIdempotencyKey (uuid : String) : String := uuid

/-- The amount check `params.amount.match(/^\d+(\.\d+)?$/)` of
`createTransfer`: one or more digits, optionally a dot and one or more
digits. -/
def validAmountFormat (s : String) : Bool :=
  let cs := s.toList
  let ds := cs.takeWhile Char.isDigit
  let rest := cs.dropWhile Char.isDigit
  decide (ds ≠ []) &&
    (match rest with
     | [] => true
     | c :: tl => decide (c = '.') && decide (tl ≠ []) && tl.all Char.isDigit)

/-- The error thrown by `createTransfer` on a malformed amount string. -/
def transferInvalidAmountMsg : Msg :=
  "Invalid amount format. Must be a string representing major units (e.g. \"1.00\")."

/-- Model of `client.getBalance`: try `/v1/balances`; on failure try
`/v1/businessAccount/balances`; if both fail rethrow the first error. -/
def getBalance (w : World) : Except Msg Envelope × Trace :=
  match w.balancesPrimary with
  | .ok v => (.ok v, [ApiCall.balancesPrimary])
  | .error e =>
    match w.balancesSecondary with
    | .ok v => (.ok v, [ApiCall.balancesPrimary, ApiCall.balancesSecondary])
    | .error _ => (.error e, [ApiCall.balancesPrimary, ApiCall.balancesSecondary])

/-- Input of `AccountAndTransferTester.createTransfer`: a raw blockchain
address, a chain, a major-units amount string, an optional currency. -/
structure TransferParams where
  recipientAddress : String
  chain : String
  amount : String
  currency : Option String := none
deriving DecidableEq, Repr

/-- Model of `AccountAndTransferTester.createTransfer`.  Here `fmt` stands for the JS
expression `s => parseFloat(s).toFixed(2)`, whose value is determined by
IEEE-754 binary64 arithmetic and is kept as an explicit parameter (it
affects only the `amount` field of the payout request, never control flow).
`now1`/`now2` are the two `Date.now()` samples. -/
def createTransfer (fmt : String → String) (w : World) (now1 now2 : Nat)
    (p : TransferParams) : Except Msg Envelope × Trace :=
  match getBalance w with
  | (.error e, t) => (.error e, t)
  | (.ok _, t1) =>
    if validAmountFormat p.amount = false then
      (.error transferInvalidAmountMsg, t1)
    else
      let abp : AddressBookParams :=
        ⟨abIdempotencyKey now1, p.chain, p.recipientAddress,
          "Transfer target " ++ p.chain⟩
      match w.createAddressBookRecipient abp with
      | .error e => (.error e, t1 ++ [ApiCall.createAddressBookRecipient abp])
      | .ok abEntry =>
        let t2 := t1 ++ [ApiCall.createAddressBookRecipient abp]
        match truthyOptStr (abEntry.data.bind Resource.id) with
        | none => (.error "Failed to add address to address book", t2)
        | some recipientId =>
          let pp : PayoutParams :=
            ⟨transferIdempotencyKey now2, "address_book", recipientId,
              fmt p.amount, orD p.currency "USD"⟩
          match w.createPayout pp with
          | .error e => (.error e, t2 ++ [ApiCall.createPayout pp])
          | .ok payout => (.ok payout, t2 ++ [ApiCall.createPayout pp])

/-- Input of `ExpressRouteTester.linkBankAccount`. -/
structure BankLinkParams where
  accountNumber : Option String := none
  routingNumber : Option String := none
deriving DecidableEq, Repr

/-- Model of `ExpressRouteTester.linkBankAccount` (step 1): create the wire bank
account; on an error whose message contains `already`, `2023` or `400`,
list the accounts and reuse the first one; otherwise, or when the listing
is empty, rethrow the original error. -/
def linkBankAccount (w : World) (uuid : String) (p : BankLinkParams) :
    Except Msg Envelope × Trace :=
  let body : WireBankParams :=
    ⟨uuid, nullishD p.accountNumber "12340010", nullishD p.routingNumber "121000248"⟩
  match w.createWireBankAccount body with
  | .ok account => (.ok account, [ApiCall.createWireBankAccount body])
  | .error e =>
    if includesSub e "already" || includesSub e "2023" || includesSub e "400" then
      match w.listWireBankAccounts with
      | .error e2 =>
        (.error e2, [ApiCall.createWireBankAccount body, ApiCall.listWireBankAccounts])
      | .ok existing =>
        match existing.data.bind List.head? with
        | some first =>
          (.ok ⟨some first⟩,
            [ApiCall.createWireBankAccount body, ApiCall.listWireBankAccounts])
        | none =>
          (.error e,
            [ApiCall.createWireBankAccount body, ApiCall.listWireBankAccounts])
    else (.error e, [ApiCall.createWireBankAccount body])

/-- Input of `ExpressRouteTester.linkReceiptAddress`. -/
structure ReceiptLinkParams where
  chain : Option String := none
  currency : Option String := none
deriving DecidableEq, Repr

/-- Model of `ExpressRouteTester.linkReceiptAddress` (step 2): create the deposit
address; on an error whose message contains `2023` or `already`, list the
deposit addresses and reuse the entry whose chain matches, else the first
entry; otherwise, or when nothing is listed, rethrow the original error. -/
def linkReceiptAddress (w : World) (uuid : String) (p : ReceiptLinkParams) :
    Except Msg Envelope × Trace :=
  let chain := nullishD p.chain "ETH"
  let currency := nullishD p.currency "USD"
  let dp : DepositAddressParams := ⟨uuid, chain, currency⟩
  match w.createDepositAddress dp with
  | .ok address => (.ok address, [ApiCall.createDepositAddress dp])
  | .error e =>
    if includesSub e "2023" || includesSub e "already" then
      match w.listBusinessDepositAddresses with
      | .error e2 =>
        (.error e2, [ApiCall.createDepositAddress dp, ApiCall.listBusinessDepositAddresses])
      | .ok existing =>
        match existing.data with
        | none =>
          (.error e, [ApiCall.createDepositAddress dp, ApiCall.listBusinessDepositAddresses])
        | some l =>
          match l.find? (fun a => a.chain == some chain) with
          | some m =>
            (.ok ⟨some m⟩,
              [ApiCall.createDepositAddress dp, ApiCall.listBusinessDepositAddresses])
          | none =>
            match l.head? with
            | some first =>
              (.ok ⟨some first⟩,
                [ApiCall.createDepositAddress dp, ApiCall.listBusinessDepositAddresses])
            | none =>
              (.error e,
                [ApiCall.createDepositAddress dp, ApiCall.listBusinessDepositAddresses])
    else (.error e, [ApiCall.createDepositAddress dp])

/-- Input of `ExpressRouteTester.initiateMockDeposit`. -/
structure MockDepositParams where
  trackingRef : String
  amount : Option String := none
  accountNumber : Option String := none
deriving DecidableEq, Repr

/-- Model of `ExpressRouteTester.initiateMockDeposit` (step 3): create the sandbox
wire payment; a duplicate-style error (`already`/`2023`) yields `null`,
any other error is rethrown. -/
def initiateMockDeposit (w : World) (p : MockDepositParams) :
    Except Msg (Option Envelope) × Trace :=
  let mp : MockWireParams :=
    ⟨p.trackingRef, nullishD p.amount "100.00", nullishD p.accountNumber "12340010"⟩
  match w.createMockWirePayment mp with
  | .ok payment => (.ok (some payment), [ApiCall.createMockWirePayment mp])
  | .error e =>
    if includesSub e "already" || includesSub e "2023" then
      (.ok none, [ApiCall.createMockWirePayment mp])
    else (.error e, [ApiCall.createMockWirePayment mp])

/-- Input of `ExpressRouteTester.initiateOnChainDeposit`. -/
structure OnChainDepositParams where
  address : String
  chain : Option String := none
  amount : Option String := none
deriving DecidableEq, Repr

/-- Model of `ExpressRouteTester.initiateOnChainDeposit` (step 4): create the mock
blockchain deposit; every error is swallowed and yields `null`. -/
def initiateOnChainDeposit (w : World) (p : OnChainDepositParams) :
    Except Msg (Option Envelope) × Trace :=
  let mp : MockChainParams :=
    ⟨p.address, nullishD p.amount "10.00", nullishD p.chain "ETH"⟩
  match w.createMockBlockchainDeposit mp with
  | .ok deposit => (.ok (some deposit), [ApiCall.createMockBlockchainDeposit mp])
  | .error _ => (.ok none, [ApiCall.createMockBlockchainDeposit mp])

/-- Input of `ExpressRouteTester.initiateOnChainTransfer`. -/
structure OnChainTransferParams where
  recipientId : String
  amount : Option String := none
  currency : Option String := none
deriving DecidableEq, Repr

/-- Model of `ExpressRouteTester.initiateOnChainTransfer` (step 5): no fallback. -/
def initiateOnChainTransfer (w : World) (uuid : String) (p : OnChainTransferParams) :
    Except Msg Envelope × Trace :=
  let bp : BusinessTransferParams :=
    ⟨uuid, p.recipientId, nullishD p.amount "1.00", nullishD p.currency "USD"⟩
  match w.createBusinessTransfer bp with
  | .ok transfer => (.ok transfer, [ApiCall.createBusinessTransfer bp])
  | .error e => (.error e, [ApiCall.createBusinessTransfer bp])

/-- Input of `ExpressRouteTester.initiateWithdrawal`. -/
structure WithdrawalParams where
  bankAccountId : String
  amount : Option String := none
  currency : Option String := none
  destinationType : Option String := none
deriving DecidableEq, Repr

/-- Model of `ExpressRouteTester.initiateWithdrawal` (step 6): no fallback. -/
def initiateWithdrawal (w : World) (uuid : String) (p : WithdrawalParams) :
    Except Msg Envelope × Trace :=
  let bp : BusinessPayoutParams :=
    ⟨uuid, nullishD p.destinationType "wire", p.bankAccountId,
      nullishD p.amount "10.00", nullishD p.currency "USD"⟩
  match w.createBusinessPayout bp with
  | .ok payout => (.ok payout, [ApiCall.createBusinessPayout bp])
  | .error e => (.error e, [ApiCall.createBusinessPayout bp])

/-- Input of `ExpressRouteTester.createExpressRoute`.  `receiptAddressId` is
optional because `runFullFlow` forwards `depositAddressId!`, which can in
fact be `undefined` when the listed deposit address carried no `id`. -/
structure RouteCreateParams where
  receiptAddressId : Option String
  bankAccountId : String
  destinationType : Option String := none
  currency : Option String := none
deriving DecidableEq, Repr

/-- Model of `ExpressRouteTester.createExpressRoute` (step 7): create the route; on
an `already`/`2023` error, list the routes and reuse the one whose
`receiptAddressId` matches, else the first listed; in every remaining error
case — no match found, listing failed, or a non-duplicate creation error —
the method returns `null` instead of rethrowing. -/
def createExpressRoute (w : World) (uuid : String) (p : RouteCreateParams) :
    Except Msg (Option Envelope) × Trace :=
  let rp : ExpressRouteReqParams :=
    ⟨uuid, p.receiptAddressId, p.bankAccountId,
      nullishD p.destinationType "wire", nullishD p.currency "USD"⟩
  match w.createExpressRoute rp with
  | .ok route => (.ok (some route), [ApiCall.createExpressRoute rp])
  | .error e =>
    if includesSub e "already" || includesSub e "2023" then
      match w.listExpressRoutes with
      | .error _ =>
        (.ok none, [ApiCall.createExpressRoute rp, ApiCall.listExpressRoutes])
      | .ok existing =>
        match (existing.data.bind
            (List.find? (fun r => r.receiptAddressId == p.receiptAddressId))).orElse
            (fun _ => existing.data.bind List.head?) with
        | some m =>
          (.ok (some ⟨some m⟩), [ApiCall.createExpressRoute rp, ApiCall.listExpressRoutes])
        | none =>
          (.ok none, [ApiCall.createExpressRoute rp, ApiCall.listExpressRoutes])
    else (.ok none, [ApiCall.createExpressRoute rp])

/-- Input of `ExpressRouteTester.runFullFlow`. -/
structure FullFlowParams where
  chain : Option String := none
  amount : Option String := none
  existingBankId : Option String := none
  existingDepositAddressId : Option String := none
  existingDepositAddress : Option String := none
  existingRecipientId : Option String := none
deriving DecidableEq, Repr

/-- The `crypto.randomUUID()` samples `runFullFlow` can consume, one per
create step (bank, receipt address, on-chain transfer, withdrawal, route). -/
structure UuidSupply where
  bankUuid : String
  receiptUuid : String
  transferUuid : String
  withdrawalUuid : String
  routeUuid : String
deriving DecidableEq, Repr

/-- The error of `runFullFlow` when wire instructions carry no tracking ref. -/
def noTrackingRefMsg : Msg := "Could not retrieve tracking ref from wire instructions"

/-- The error of `runFullFlow` when wire instructions carry no beneficiary
account number. -/
def noBeneficiaryMsg : Msg :=
  "Could not retrieve beneficiary account number from wire instructions"

/-- Step 7 of `runFullFlow`: create the express route. -/
def runFullFlowStep7 (w : World) (E : UuidSupply)
    (bank : String) (daid : Option String) (t5 : Trace) : Except Msg Unit × Trace :=
  match createExpressRoute w E.routeUuid ⟨daid, bank, none, none⟩ with
  | (.error e, t) => (.error e, t5 ++ t)
  | (.ok _, tR) => (.ok (), t5 ++ tR)

/-- Step 6 of `runFullFlow`: the fiat withdrawal, then step 7. -/
def runFullFlowStep6 (w : World) (E : UuidSupply)
    (bank : String) (daid : Option String) (t4 : Trace) : Except Msg Unit × Trace :=
  match initiateWithdrawal w E.withdrawalUuid ⟨bank, some "10.00", none, none⟩ with
  | (.error e, t) => (.error e, t4 ++ t)
  | (.ok _, tW) => runFullFlowStep7 w E bank daid (t4 ++ tW)

/-- Step 5 of `runFullFlow`: the on-chain transfer when a verified recipient
id was supplied (skipped otherwise), then step 6. -/
def runFullFlowStep5 (w : World) (E : UuidSupply) (p : FullFlowParams)
    (bank : String) (daid : Option String) (t3 : Trace) : Except Msg Unit × Trace :=
  match truthyOptStr p.existingRecipientId with
  | some recipientId =>
    match initiateOnChainTransfer w E.transferUuid ⟨recipientId, some "1.00", none⟩ with
    | (.error e, t) => (.error e, t3 ++ t)
    | (.ok _, tT) => runFullFlowStep6 w E bank daid (t3 ++ tT)
  | none => runFullFlowStep6 w E bank daid t3

/-- Step 4 of `runFullFlow`: the mock on-chain deposit, then step 5. -/
def runFullFlowStep4 (w : World) (E : UuidSupply) (p : FullFlowParams)
    (bank : String) (daid : Option String) (da : String) (t2 : Trace) :
    Except Msg Unit × Trace :=
  match initiateOnChainDeposit w
      ⟨da, some (nullishD p.chain "ETH"), some (nullishD p.amount "10.00")⟩ with
  | (.error e, t) => (.error e, t2 ++ t)
  | (.ok _, tC) => runFullFlowStep5 w E p bank daid (t2 ++ tC)

/-- Steps 3 to 7 of `runFullFlow`, from the point where the bank account id
and the deposit address are in hand: fetch the wire instructions, require a
truthy tracking ref and beneficiary account number, then run the mock wire
deposit and the later steps. -/
def runFullFlowFromInstructions (w : World) (E : UuidSupply) (p : FullFlowParams)
    (bankAccountId : String) (depositAddressId : Option String)
    (depositAddress : String) (t0 : Trace) : Except Msg Unit × Trace :=
  let t1 := t0 ++ [ApiCall.getWireBankAccountInstructions bankAccountId]
  match w.getWireBankAccountInstructions bankAccountId with
  | .error e => (.error e, t1)
  | .ok instructions =>
    let beneficiaryAccountNumber :=
      truthyOptStr (instructions.data.bind Resource.beneficiaryAccountNumber)
    match truthyOptStr (instructions.data.bind Resource.trackingRef) with
    | none => (.error noTrackingRefMsg, t1)
    | some trackingRef =>
      match beneficiaryAccountNumber with
      | none => (.error noBeneficiaryMsg, t1)
      | some accountNumber =>
        match initiateMockDeposit w
            ⟨trackingRef, some (nullishD p.amount "100.00"), some accountNumber⟩ with
        | (.error e, t) => (.error e, t1 ++ t)
        | (.ok _, tMock) =>
          runFullFlowStep4 w E p bankAccountId depositAddressId depositAddress
            (t1 ++ tMock)

/-- Step 1 of `runFullFlow`: obtain the bank account id, linking a bank
account unless `existingBankId` is truthy; the error side carries the
message and the trace so far. -/
def fullFlowBankStep (w : World) (E : UuidSupply) (p : FullFlowParams) :
    Except (Msg × Trace) (String × Trace) :=
  match truthyOptStr p.existingBankId with
  | some bid => .ok (bid, [])
  | none =>
    match linkBankAccount w E.bankUuid ⟨none, none⟩ with
    | (.error e, t) => .error (e, t)
    | (.ok bank, t) =>
      match truthyOptStr (bank.data.bind Resource.id) with
      | none => .error ("Failed to obtain bank account ID", t)
      | some bid => .ok (bid, t)

/-- Step 2 of `runFullFlow`: obtain the deposit address (id and address),
linking a receipt address unless both existing values are truthy.  The id
is kept raw (`addr.data?.id` is not checked and can be missing). -/
def fullFlowReceiptStep (w : World) (E : UuidSupply) (p : FullFlowParams) :
    Except (Msg × Trace) ((Option String × String) × Trace) :=
  if truthyStr p.existingDepositAddressId && truthyStr p.existingDepositAddress then
    .ok ((p.existingDepositAddressId, nullishD p.existingDepositAddress ""), [])
  else
    match linkReceiptAddress w E.receiptUuid ⟨some (nullishD p.chain "ETH"), none⟩ with
    | (.error e, t) => .error (e, t)
    | (.ok addr, t) =>
      match truthyOptStr (addr.data.bind Resource.address) with
      | none => .error ("Failed to obtain deposit address", t)
      | some a => .ok ((addr.data.bind Resource.id, a), t)

/-- Model of `ExpressRouteTester.runFullFlow`: the seven steps in order, aborting on
the first rethrown error. -/
def runFullFlow (w : World) (E : UuidSupply) (p : FullFlowParams) :
    Except Msg Unit × Trace :=
  match fullFlowBankStep w E p with
  | .error (e, t) => (.error e, t)
  | .ok (bankAccountId, tBank) =>
    match fullFlowReceiptStep w E p with
    | .error (e, t) => (.error e, tBank ++ t)
    | .ok ((depositAddressId, depositAddress), tAddr) =>
      runFullFlowFromInstructions w E p bankAccountId depositAddressId
        depositAddress (tBank ++ tAddr)

/-- The credential and base URL the client reads from `config`. -/
structure ClientConfig where
  apiKey : String
  baseUrl : String
deriving DecidableEq, Repr

/-- The parts of a `fetch` response that `request` inspects.  `body` is the
outcome of `response.json()`: the parsed payload rendered back to a string,
or a parse error. -/
structure FetchResponse where
  ok : Bool
  status : Nat
  body : Except Msg String
  statusText : String

/-- One HTTP request as sent by `fetch`. -/
structure SentRequest where
  url : String
  headers : List (String × String)
deriving DecidableEq, Repr

/-- The header object literal of `request`, before `...options.headers`. -/
def baseHeaders (apiKey : String) : List (String × String) :=
  [("Authorization", "Bearer " ++ apiKey), ("Content-Type", "application/json")]

/-- JS object spread `{ ...base, ...extra }`: every key of `extra` overrides
the base entry of the same name. -/
def spreadHeaders (base extra : List (String × String)) : List (String × String)  :=
  base.filter (fun kv => (extra.lookup kv.1).isNone) ++ extra

/-- The error thrown by `request` before `fetch` on a non-HTTPS URL. -/
def httpsRequiredMsg : Msg :=
  "Circle APIs require HTTPS. All requests must be made over HTTPS."

/-- Model of the `JSON.stringify` error payload of `{ message: statusText }`, used when
the error response body is not JSON. -/
def statusTextPayload (statusText : String) : String :=
  "\x7b\"message\":\"" ++ statusText ++ "\"\x7d"

/-- Model of `CircleMintClient.request`: build `baseUrl + endpoint`, refuse non-HTTPS
URLs before any I/O, otherwise send one `fetch` with the bearer and JSON
headers (methods of the class never pass `options.headers`, so
`extraHeaders` is `[]` in every actual call) and surface non-2xx responses
as a single descriptive error. -/
def request (cfg : ClientConfig) (endpoint : String)
    (extraHeaders : List (String × String)) (doFetch : SentRequest → FetchResponse) :
    Except Msg String × List SentRequest :=
  let url := cfg.baseUrl ++ endpoint
  if jsStartsWith url "https://" = false then
    (.error httpsRequiredMsg, [])
  else
    let req : SentRequest := ⟨url, spreadHeaders (baseHeaders cfg.apiKey) extraHeaders⟩
    let response := doFetch req
    if response.ok = false then
      let payload :=
        match response.body with
        | .ok b => b
        | .error _ => statusTextPayload response.statusText
      (.error ("Circle Mint API Error (" ++ decimalString response.status ++ "): "
        ++ payload), [req])
    else
      match response.body with
      | .ok b => (.ok b, [req])
      | .error e => (.error e, [req])

/-- A world in which every call succeeds with a minimal plausible response;
concrete scenarios override individual methods. -/
def okWorld : World where
  balancesPrimary := .ok {}
  balancesSecondary := .ok {}
  createAddressBookRecipient := fun _ => .ok ⟨some { id := some "ab-rec-1" }⟩
  createPayout := fun _ => .ok ⟨some { id := some "payout-1", status := some "pending" }⟩
  createWireBankAccount := fun _ => .ok ⟨some { id := some "bank-1", status := some "pending" }⟩
  listWireBankAccounts := .ok ⟨some [{ id := some "bank-1" }]⟩
  createDepositAddress := fun _ =>
    .ok ⟨some { id := some "addr-1", address := some "0xDEPOSIT", chain := some "ETH" }⟩
  listBusinessDepositAddresses :=
    .ok ⟨some [{ id := some "addr-1", address := some "0xDEPOSIT", chain := some "ETH" }]⟩
  createMockWirePayment := fun _ => .ok ⟨some { status := some "pending" }⟩
  createMockBlockchainDeposit := fun _ => .ok ⟨some {}⟩
  createBusinessTransfer := fun _ => .ok ⟨some { id := some "transfer-1" }⟩
  createBusinessPayout := fun _ => .ok ⟨some { id := some "bpayout-1" }⟩
  createExpressRoute := fun _ => .ok ⟨some { id := some "route-1" }⟩
  listExpressRoutes := .ok ⟨some [{ id := some "route-1", receiptAddressId := some "addr-1" }]⟩
  getWireBankAccountInstructions := fun _ =>
    .ok ⟨some { trackingRef := some "CIR123456", beneficiaryAccountNumber := some "99988776" }⟩

/-- A duplicate-style wire-bank-account creation failure. -/
def bankConflictMsg : Msg :=
  "Circle Mint API Error (409): \x7b\"code\":2023,\"message\":\"Bank account already exists\"\x7d"

/-- Wire bank account creation fails with a duplicate-style error; one
account is already on file. -/
def bankConflictWorld : World :=
  { okWorld with createWireBankAccount := fun _ => .error bankConflictMsg }

/-- Wire bank account creation fails with a duplicate-style error and the
account listing is empty. -/
def bankConflictEmptyWorld : World :=
  { okWorld with
    createWireBankAccount := fun _ => .error bankConflictMsg,
    listWireBankAccounts := .ok ⟨some []⟩ }

/-- C5: on a wire-bank-account creation error whose message has the
"already exists" style, `linkBankAccount` returns the first listed account
wrapped as `{ data }` when the listing is non-empty, and rethrows the
original error when the listing is empty. -/
theorem linkBankAccount_alreadyExists_reuses_first_or_rethrows
    (w : World) (uuid : String) (p : BankLinkParams) (e : Msg) (l : List Resource)
    (hc : w.createWireBankAccount
      ⟨uuid, nullishD p.accountNumber "12340010", nullishD p.routingNumber "121000248"⟩
      = .error e)
    (hinc : includesSub e "already" = true)
    (hl : w.listWireBankAccounts = .ok ⟨some l⟩) :
    (∀ first rest, l = first :: rest →
      (linkBankAccount w uuid p).1 = .ok ⟨some first⟩) ∧
    (l = [] → (linkBankAccount w uuid p).1 = .error e) := by
  constructor
  · intro first rest hl'
    subst hl'
    simp [linkBankAccount, hc, hinc, hl]
  · intro hl'
    subst hl'
    simp [linkBankAccount, hc, hinc, hl]

/-- C5 witness: with one account on file the first entry is reused; with an
empty listing the original duplicate error is rethrown. -/
theorem linkBankAccount_alreadyExists_witness :
    (linkBankAccount bankConflictWorld "uuid-1" {}).1 = .ok ⟨some { id := some "bank-1" }⟩ ∧
    (linkBankAccount bankConflictEmptyWorld "uuid-1" {}).1 = .error bankConflictMsg :=
  ⟨(linkBankAccount_alreadyExists_reuses_first_or_rethrows bankConflictWorld "uuid-1" {}
      bankConflictMsg [{ id := some "bank-1" }] rfl (by decide) rfl).1
      { id := some "bank-1" } [] rfl,
   (linkBankAccount_alreadyExists_reuses_first_or_rethrows bankConflictEmptyWorld "uuid-1" {}
      bankConflictMsg [] rfl (by decide) rfl).2 rfl⟩

/-- A duplicate-style deposit-address creation failure. -/
def depositConflictMsg : Msg :=
  "Circle Mint API Error (409): \x7b\"code\":2023,\"message\":\"Deposit address already exists\"\x7d"

/-- Deposit-address creation fails with a duplicate-style error; the ETH
address created earlier is on file. -/
def depositConflictWorld : World :=
  { okWorld with createDepositAddress := fun _ => .error depositConflictMsg }

/-- C6: on a duplicate-style deposit-address creation error,
`linkReceiptAddress` returns the listed entry whose chain equals the
requested chain when one exists, and otherwise the first listed entry. -/
theorem linkReceiptAddress_duplicate_prefers_chain_match
    (w : World) (uuid : String) (p : ReceiptLinkParams) (e : Msg) (l : List Resource)
    (hc : w.createDepositAddress
      ⟨uuid, nullishD p.chain "ETH", nullishD p.currency "USD"⟩ = .error e)
    (hinc : (includesSub e "2023" || includesSub e "already") = true)
    (hl : w.listBusinessDepositAddresses = .ok ⟨some l⟩) :
    (∀ m, l.find? (fun a => a.chain == some (nullishD p.chain "ETH")) = some m →
      (linkReceiptAddress w uuid p).1 = .ok ⟨some m⟩) ∧
    (l.find? (fun a => a.chain == some (nullishD p.chain "ETH")) = none →
      ∀ first rest, l = first :: rest →
        (linkReceiptAddress w uuid p).1 = .ok ⟨some first⟩) := by
  constructor
  · intro m hm
    simp [linkReceiptAddress, hc, hinc, hl, hm]
  · intro hm first rest hl'
    subst hl'
    simp [linkReceiptAddress, hc, hinc, hl, hm]

/-- C6 witness, the end-to-end scenario: the second `"ETH"` creation fails
with a duplicate-style error and `linkReceiptAddress` returns the
originally created ETH address's data instead of propagating the error. -/
theorem linkReceiptAddress_duplicate_witness :
    (linkReceiptAddress depositConflictWorld "uuid-2" ⟨some "ETH", none⟩).1 =
      .ok ⟨some { id := some "addr-1", address := some "0xDEPOSIT", chain := some "ETH" }⟩ :=
  (linkReceiptAddress_duplicate_prefers_chain_match depositConflictWorld "uuid-2"
      ⟨some "ETH", none⟩ depositConflictMsg
      [{ id := some "addr-1", address := some "0xDEPOSIT", chain := some "ETH" }]
      rfl (by decide) rfl).1
      { id := some "addr-1", address := some "0xDEPOSIT", chain := some "ETH" } (by decide)

/-- A plain HTTP 400 validation failure, with no duplicate wording. -/
def plainBadRequestMsg : Msg :=
  "Circle Mint API Error (400): \x7b\"code\":5,\"message\":\"invalid routing number\"\x7d"

/-- Wire bank account creation fails with a plain 400 validation error. -/
def bad400World : World :=
  { okWorld with createWireBankAccount := fun _ => .error plainBadRequestMsg }

/-- C10: `linkBankAccount` applies its list-and-reuse fallback to every
error whose message contains the substring `400` — duplicate wording is not
required — returning the first listed account when the listing is
non-empty. -/
theorem linkBankAccount_swallows_any_400
    (w : World) (uuid : String) (p : BankLinkParams) (e : Msg)
    (first : Resource) (rest : List Resource)
    (hc : w.createWireBankAccount
      ⟨uuid, nullishD p.accountNumber "12340010", nullishD p.routingNumber "121000248"⟩
      = .error e)
    (hinc : includesSub e "400" = true)
    (hl : w.listWireBankAccounts = .ok ⟨some (first :: rest)⟩) :
    (linkBankAccount w uuid p).1 = .ok ⟨some first⟩ := by
  simp [linkBankAccount, hc, hinc, hl]

/-- C10 witness: a 400 validation error that is not duplicate-styled (its
message contains neither `already` nor `2023`) is still swallowed and the
first existing account is returned. -/
theorem linkBankAccount_swallows_any_400_witness :
    includesSub plainBadRequestMsg "already" = false ∧
    includesSub plainBadRequestMsg "2023" = false ∧
    (linkBankAccount bad400World "uuid-3" {}).1 = .ok ⟨some { id := some "bank-1" }⟩ :=
  ⟨by decide, by decide,
    linkBankAccount_swallows_any_400 bad400World "uuid-3" {} plainBadRequestMsg
      { id := some "bank-1" } [] rfl (by decide) rfl⟩

/-- A duplicate-style express-route creation failure. -/
def routeConflictMsg : Msg :=
  "Circle Mint API Error (409): \x7b\"code\":2023,\"message\":\"Express route already exists\"\x7d"

/-- Express-route creation fails with a duplicate-style error and the route
listing is empty, so the fallback finds no match. -/
def routeConflictNoMatchWorld : World :=
  { okWorld with
    createExpressRoute := fun _ => .error routeConflictMsg,
    listExpressRoutes := .ok ⟨some []⟩ }

/-- C3 counterexample: when the duplicate fallback of `createExpressRoute`
finds no existing route, the method returns the non-error value `null`
instead of raising the original creation error. -/
theorem createExpressRoute_no_match_returns_null :
    (createExpressRoute routeConflictNoMatchWorld "uuid-4"
      ⟨some "ra-1", "bank-1", none, none⟩).1 = .ok none ∧
    ∀ m : Msg, (createExpressRoute routeConflictNoMatchWorld "uuid-4"
      ⟨some "ra-1", "bank-1", none, none⟩).1 ≠ .error m := by
  refine ⟨rfl, ?_⟩
  intro m h
  rw [show (createExpressRoute routeConflictNoMatchWorld "uuid-4"
    ⟨some "ra-1", "bank-1", none, none⟩).1 = .ok none from rfl] at h
  exact Except.noConfusion h

/-- C3 amended: on a conflict with no matching listed resource,
`linkBankAccount` and `linkReceiptAddress` rethrow the original creation
error, but `createExpressRoute` swallows it and returns `null`. -/
theorem conflictFallback_no_match_behavior :
    (∀ (w : World) (uuid : String) (p : BankLinkParams) (e : Msg),
      w.createWireBankAccount
        ⟨uuid, nullishD p.accountNumber "12340010", nullishD p.routingNumber "121000248"⟩
        = .error e →
      (includesSub e "already" || includesSub e "2023" || includesSub e "400") = true →
      w.listWireBankAccounts = .ok ⟨some []⟩ →
      (linkBankAccount w uuid p).1 = .error e) ∧
    (∀ (w : World) (uuid : String) (p : ReceiptLinkParams) (e : Msg),
      w.createDepositAddress
        ⟨uuid, nullishD p.chain "ETH", nullishD p.currency "USD"⟩ = .error e →
      (includesSub e "2023" || includesSub e "already") = true →
      w.listBusinessDepositAddresses = .ok ⟨some []⟩ →
      (linkReceiptAddress w uuid p).1 = .error e) ∧
    (∀ (w : World) (uuid : String) (p : RouteCreateParams) (e : Msg),
      w.createExpressRoute
        ⟨uuid, p.receiptAddressId, p.bankAccountId,
          nullishD p.destinationType "wire", nullishD p.currency "USD"⟩ = .error e →
      (includesSub e "already" || includesSub e "2023") = true →
      w.listExpressRoutes = .ok ⟨some []⟩ →
      (createExpressRoute w uuid p).1 = .ok none) := by
  refine ⟨?_, ?_, ?_⟩
  · intro w uuid p e hc hinc hl
    simp [linkBankAccount, hc, hinc, hl]
  · intro w uuid p e hc hinc hl
    simp [linkReceiptAddress, hc, hinc, hl]
  · intro w uuid p e hc hinc hl
    simp [createExpressRoute, hc, hinc, hl, Option.orElse]

/-- Deposit-address creation fails with a duplicate-style error and the
address listing is empty. -/
def depositConflictEmptyWorld : World :=
  { okWorld with
    createDepositAddress := fun _ => .error depositConflictMsg,
    listBusinessDepositAddresses := .ok ⟨some []⟩ }

/-- C3 amended witness: the two rethrowing fallbacks rethrow on an empty
listing and `createExpressRoute` returns `null` in the same situation. -/
theorem conflictFallback_no_match_witness :
    (linkBankAccount bankConflictEmptyWorld "uuid-5" {}).1 = .error bankConflictMsg ∧
    (linkReceiptAddress depositConflictEmptyWorld "uuid-5" ⟨some "ETH", none⟩).1 =
      .error depositConflictMsg ∧
    (createExpressRoute routeConflictNoMatchWorld "uuid-5"
      ⟨some "ra-1", "bank-1", none, none⟩).1 = .ok none :=
  ⟨conflictFallback_no_match_behavior.1 bankConflictEmptyWorld "uuid-5" {}
      bankConflictMsg rfl (by decide) rfl,
   conflictFallback_no_match_behavior.2.1 depositConflictEmptyWorld "uuid-5"
      ⟨some "ETH", none⟩ depositConflictMsg rfl (by decide) rfl,
   conflictFallback_no_match_behavior.2.2 routeConflictNoMatchWorld "uuid-5"
      ⟨some "ra-1", "bank-1", none, none⟩ routeConflictMsg rfl (by decide) rfl⟩

/-- The malformed-amount transfer input of the C2 scenario. -/
def malformedAmountParams : TransferParams :=
  ⟨"0xRAW00000000000000000000000000000000000000", "ETH", "not-a-number", none⟩

/-- C2 counterexample: on a malformed amount `createTransfer` does raise the
validation error, but only after issuing the balance-check network call —
the trace already contains a client request, refuting "no client request is
issued prior to the validation failure". -/
theorem createTransfer_network_call_before_validation :
    (createTransfer id okWorld 1 2 malformedAmountParams).1 =
      .error transferInvalidAmountMsg ∧
    (createTransfer id okWorld 1 2 malformedAmountParams).2 =
      [ApiCall.balancesPrimary] := by
  exact ⟨rfl, rfl⟩

/-- C2 amended: a malformed amount string is rejected (with the validation
error whenever the preceding balance check succeeded) before the
address-book and payout network calls — but after the balance-check call,
so the trace may already contain the one or two balance requests. -/
theorem createTransfer_invalid_amount_rejected_after_balance
    (fmt : String → String) (w : World) (now1 now2 : Nat) (p : TransferParams)
    (hv : validAmountFormat p.amount = false) :
    (∀ env, (getBalance w).1 = .ok env →
      (createTransfer fmt w now1 now2 p).1 = .error transferInvalidAmountMsg) ∧
    (∀ c ∈ (createTransfer fmt w now1 now2 p).2,
      c = ApiCall.balancesPrimary ∨ c = ApiCall.balancesSecondary) := by
  constructor
  · intro env henv
    cases hbp : w.balancesPrimary with
    | ok v => simp [createTransfer, getBalance, hbp, hv]
    | error e =>
      cases hbs : w.balancesSecondary with
      | ok v => simp [createTransfer, getBalance, hbp, hbs, hv]
      | error e2 => simp [getBalance, hbp, hbs] at henv
  · intro c hc
    cases hbp : w.balancesPrimary with
    | ok v =>
      simp [createTransfer, getBalance, hbp, hv] at hc
      subst hc
      exact Or.inl rfl
    | error e =>
      cases hbs : w.balancesSecondary with
      | ok v =>
        simp [createTransfer, getBalance, hbp, hbs, hv] at hc
        rcases hc with hc | hc
        · exact Or.inl hc
        · exact Or.inr hc
      | error e2 =>
        simp [createTransfer, getBalance, hbp, hbs, hv] at hc
        rcases hc with hc | hc
        · exact Or.inl hc
        · exact Or.inr hc

/-- C2 amended witness: for the malformed amount `"not-a-number"` under a
world whose balance check succeeds, the result is the validation error, and
the one call the trace does contain is classified as a balance call by the
theorem. -/
theorem createTransfer_invalid_amount_witness :
    (createTransfer id okWorld 1 2 malformedAmountParams).1 =
      .error transferInvalidAmountMsg ∧
    (ApiCall.balancesPrimary = ApiCall.balancesPrimary ∨
      ApiCall.balancesPrimary = ApiCall.balancesSecondary) :=
  ⟨(createTransfer_invalid_amount_rejected_after_balance id okWorld 1 2
      malformedAmountParams (by decide)).1 {} rfl,
   (createTransfer_invalid_amount_rejected_after_balance id okWorld 1 2
      malformedAmountParams (by decide)).2 ApiCall.balancesPrimary (by decide)⟩

/-- Every call `getBalance` issues is one of the two balance requests. -/
theorem getBalance_calls (w : World) :
    ∀ c ∈ (getBalance w).2, c = ApiCall.balancesPrimary ∨ c = ApiCall.balancesSecondary := by
  intro c hc
  unfold getBalance at hc
  split at hc
  · exact Or.inl (by simpa using hc)
  · split at hc <;> simpa using hc

/-- The raw-blockchain-address transfer input of the C1 scenario. -/
def rawAddressParams : TransferParams :=
  ⟨"0xRAWADDRESS000000000000000000000000000001", "ETH", "1", none⟩

/-- C1 counterexample: with a raw blockchain address as destination and a
world where every call succeeds, `createTransfer` does not fail fast: it
returns the created payout, and its trace holds three network calls
(balance check, address-book creation, payout). -/
theorem createTransfer_raw_address_proceeds :
    (createTransfer (fun _ => "1.00") okWorld 1 2 rawAddressParams).1 =
      .ok ⟨some { id := some "payout-1", status := some "pending" }⟩ ∧
    (createTransfer (fun _ => "1.00") okWorld 1 2 rawAddressParams).2 =
      [ApiCall.balancesPrimary,
       ApiCall.createAddressBookRecipient
         ⟨"ab-1", "ETH", "0xRAWADDRESS000000000000000000000000000001",
           "Transfer target ETH"⟩,
       ApiCall.createPayout
         ⟨"transfer-2", "address_book", "ab-rec-1", "1.00", "USD"⟩] :=
  ⟨rfl, rfl⟩

/-- C1 amended: `createTransfer` enforces the address-book invariant rather
than failing fast: every payout request it issues has destination type
`address_book` and destination id equal to the id of the address-book entry
it created beforehand for the raw address (and when no id is obtained it
errors before any payout call — no payout call then appears in the trace). -/
theorem createTransfer_payout_destination_from_address_book
    (fmt : String → String) (w : World) (now1 now2 : Nat) (p : TransferParams)
    (pp : PayoutParams)
    (hmem : ApiCall.createPayout pp ∈ (createTransfer fmt w now1 now2 p).2) :
    pp.destinationType = "address_book" ∧
    pp.idempotencyKey = transferIdempotencyKey now2 ∧
    ∃ env, w.createAddressBookRecipient
        ⟨abIdempotencyKey now1, p.chain, p.recipientAddress,
          "Transfer target " ++ p.chain⟩ = .ok env ∧
      truthyOptStr (env.data.bind Resource.id) = some pp.destinationId ∧
      ApiCall.createAddressBookRecipient
        ⟨abIdempotencyKey now1, p.chain, p.recipientAddress,
          "Transfer target " ++ p.chain⟩ ∈ (createTransfer fmt w now1 now2 p).2 := by
  have key : ∀ res : Except Msg Envelope × Trace,
      createTransfer fmt w now1 now2 p = res →
      ApiCall.createPayout pp ∈ res.2 →
      pp.destinationType = "address_book" ∧
      pp.idempotencyKey = transferIdempotencyKey now2 ∧
      ∃ env, w.createAddressBookRecipient
          ⟨abIdempotencyKey now1, p.chain, p.recipientAddress,
            "Transfer target " ++ p.chain⟩ = .ok env ∧
        truthyOptStr (env.data.bind Resource.id) = some pp.destinationId ∧
        ApiCall.createAddressBookRecipient
          ⟨abIdempotencyKey now1, p.chain, p.recipientAddress,
            "Transfer target " ++ p.chain⟩ ∈ res.2 := by
    intro res hres hmem2
    rw [createTransfer] at hres
    split at hres
    · -- balance check failed
      next e t heq =>
        subst hres
        simp only at hmem2
        have := getBalance_calls w
        rw [heq] at this
        rcases this _ hmem2 with h | h <;> exact ApiCall.noConfusion h
    · -- balance succeeded
      next env0 t1 heq =>
        have hbal := getBalance_calls w
        rw [heq] at hbal
        simp only at hbal
        split at hres
        · -- malformed amount
          subst hres
          simp only at hmem2
          rcases hbal _ hmem2 with h | h <;> exact ApiCall.noConfusion h
        · simp only [] at hres
          split at hres
          · -- address-book creation failed
            subst hres
            simp only [List.mem_append, List.mem_singleton] at hmem2
            rcases hmem2 with hmem2 | hmem2
            · rcases hbal _ hmem2 with h | h <;> exact ApiCall.noConfusion h
            · exact ApiCall.noConfusion hmem2
          · next abEntry hab =>
              split at hres
              · -- no recipient id obtained
                subst hres
                simp only [List.mem_append, List.mem_singleton] at hmem2
                rcases hmem2 with hmem2 | hmem2
                · rcases hbal _ hmem2 with h | h <;> exact ApiCall.noConfusion h
                · exact ApiCall.noConfusion hmem2
              · next rid hid =>
                  split at hres
                  · -- payout call failed
                    subst hres
                    simp only [List.mem_append, List.mem_singleton] at hmem2
                    rcases hmem2 with (hmem2 | hmem2) | hmem2
                    · rcases hbal _ hmem2 with h | h <;> exact ApiCall.noConfusion h
                    · exact ApiCall.noConfusion hmem2
                    · cases hmem2
                      exact ⟨rfl, rfl, abEntry, hab, by rw [hid],
                        by simp only [List.mem_append, List.mem_singleton]
                           exact Or.inl (Or.inr trivial)⟩
                  · -- payout call succeeded
                    subst hres
                    simp only [List.mem_append, List.mem_singleton] at hmem2
                    rcases hmem2 with (hmem2 | hmem2) | hmem2
                    · rcases hbal _ hmem2 with h | h <;> exact ApiCall.noConfusion h
                    · exact ApiCall.noConfusion hmem2
                    · cases hmem2
                      exact ⟨rfl, rfl, abEntry, hab, by rw [hid],
                        by simp only [List.mem_append, List.mem_singleton]
                           exact Or.inl (Or.inr trivial)⟩
  exact key _ rfl hmem

/-- C1 amended witness: the payout request issued for the raw-address input
under the all-success world indeed carries destination type
`address_book`. -/
theorem createTransfer_payout_destination_witness :
    (⟨"transfer-2", "address_book", "ab-rec-1", "1.00", "USD"⟩ :
      PayoutParams).destinationType = "address_book" :=
  (createTransfer_payout_destination_from_address_book (fun _ => "1.00") okWorld 1 2
    rawAddressParams ⟨"transfer-2", "address_book", "ab-rec-1", "1.00", "USD"⟩
    (by decide)).1

/-- Calls of steps 3-7 of `runFullFlow`: everything from the mock wire
deposit on. -/
def isMockOrLaterCall : ApiCall → Bool
  | ApiCall.createMockWirePayment _ => true
  | ApiCall.createMockBlockchainDeposit _ => true
  | ApiCall.createBusinessTransfer _ => true
  | ApiCall.createBusinessPayout _ => true
  | ApiCall.createExpressRoute _ => true
  | ApiCall.listExpressRoutes => true
  | _ => false

/-- Every call `linkBankAccount` issues is a wire-bank-account call. -/
theorem linkBankAccount_calls (w : World) (u : String) (p : BankLinkParams) :
    ∀ c ∈ (linkBankAccount w u p).2,
      (∃ q, c = ApiCall.createWireBankAccount q) ∨ c = ApiCall.listWireBankAccounts := by
  intro c hc
  cases hcw : w.createWireBankAccount
      ⟨u, nullishD p.accountNumber "12340010", nullishD p.routingNumber "121000248"⟩ with
  | ok account =>
    simp [linkBankAccount, hcw] at hc
    exact Or.inl ⟨_, hc⟩
  | error e =>
    by_cases hcond : (includesSub e "already" || includesSub e "2023" || includesSub e "400") = true
    · cases hlw : w.listWireBankAccounts with
      | error e2 =>
        simp [linkBankAccount, hcw, hcond, hlw] at hc
        rcases hc with hc | hc
        · exact Or.inl ⟨_, hc⟩
        · exact Or.inr hc
      | ok ex =>
        cases hhd : ex.data.bind List.head? with
        | some first =>
          simp [linkBankAccount, hcw, hcond, hlw, hhd] at hc
          rcases hc with hc | hc
          · exact Or.inl ⟨_, hc⟩
          · exact Or.inr hc
        | none =>
          simp [linkBankAccount, hcw, hcond, hlw, hhd] at hc
          rcases hc with hc | hc
          · exact Or.inl ⟨_, hc⟩
          · exact Or.inr hc
    · simp [linkBankAccount, hcw, hcond] at hc
      exact Or.inl ⟨_, hc⟩

/-- Every call `linkReceiptAddress` issues is a deposit-address call. -/
theorem linkReceiptAddress_calls (w : World) (u : String) (p : ReceiptLinkParams) :
    ∀ c ∈ (linkReceiptAddress w u p).2,
      (∃ q, c = ApiCall.createDepositAddress q) ∨
        c = ApiCall.listBusinessDepositAddresses := by
  intro c hc
  cases hcd : w.createDepositAddress
      ⟨u, nullishD p.chain "ETH", nullishD p.currency "USD"⟩ with
  | ok address =>
    simp [linkReceiptAddress, hcd] at hc
    exact Or.inl ⟨_, hc⟩
  | error e =>
    by_cases hcond : (includesSub e "2023" || includesSub e "already") = true
    · cases hld : w.listBusinessDepositAddresses with
      | error e2 =>
        simp [linkReceiptAddress, hcd, hcond, hld] at hc
        rcases hc with hc | hc
        · exact Or.inl ⟨_, hc⟩
        · exact Or.inr hc
      | ok ex =>
        cases hdata : ex.data with
        | none =>
          simp [linkReceiptAddress, hcd, hcond, hld, hdata] at hc
          rcases hc with hc | hc
          · exact Or.inl ⟨_, hc⟩
          · exact Or.inr hc
        | some l =>
          cases hfind : l.find? (fun a => a.chain == some (nullishD p.chain "ETH")) with
          | some m =>
            simp [linkReceiptAddress, hcd, hcond, hld, hdata, hfind] at hc
            rcases hc with hc | hc
            · exact Or.inl ⟨_, hc⟩
            · exact Or.inr hc
          | none =>
            cases hhd : l.head? with
            | some first =>
              simp [linkReceiptAddress, hcd, hcond, hld, hdata, hfind, hhd] at hc
              rcases hc with hc | hc
              · exact Or.inl ⟨_, hc⟩
              · exact Or.inr hc
            | none =>
              simp [linkReceiptAddress, hcd, hcond, hld, hdata, hfind, hhd] at hc
              rcases hc with hc | hc
              · exact Or.inl ⟨_, hc⟩
              · exact Or.inr hc
    · simp [linkReceiptAddress, hcd, hcond] at hc
      exact Or.inl ⟨_, hc⟩

/-- Every call `initiateMockDeposit` issues is a mock wire payment. -/
theorem initiateMockDeposit_calls (w : World) (p : MockDepositParams) :
    ∀ c ∈ (initiateMockDeposit w p).2, ∃ q, c = ApiCall.createMockWirePayment q := by
  intro c hc
  cases hm : w.createMockWirePayment
      ⟨p.trackingRef, nullishD p.amount "100.00", nullishD p.accountNumber "12340010"⟩ with
  | ok x =>
    simp [initiateMockDeposit, hm] at hc
    exact ⟨_, hc⟩
  | error e =>
    by_cases hcond : (includesSub e "already" || includesSub e "2023") = true
    · simp [initiateMockDeposit, hm, hcond] at hc
      exact ⟨_, hc⟩
    · simp [initiateMockDeposit, hm, hcond] at hc
      exact ⟨_, hc⟩

/-- Every call `initiateOnChainDeposit` issues is a mock blockchain deposit. -/
theorem initiateOnChainDeposit_calls (w : World) (p : OnChainDepositParams) :
    ∀ c ∈ (initiateOnChainDeposit w p).2,
      ∃ q, c = ApiCall.createMockBlockchainDeposit q := by
  intro c hc
  cases hm : w.createMockBlockchainDeposit
      ⟨p.address, nullishD p.amount "10.00", nullishD p.chain "ETH"⟩ with
  | ok x =>
    simp [initiateOnChainDeposit, hm] at hc
    exact ⟨_, hc⟩
  | error e =>
    simp [initiateOnChainDeposit, hm] at hc
    exact ⟨_, hc⟩

/-- Every call `initiateOnChainTransfer` issues is a business transfer. -/
theorem initiateOnChainTransfer_calls (w : World) (u : String) (p : OnChainTransferParams) :
    ∀ c ∈ (initiateOnChainTransfer w u p).2,
      ∃ q, c = ApiCall.createBusinessTransfer q := by
  intro c hc
  cases hm : w.createBusinessTransfer
      ⟨u, p.recipientId, nullishD p.amount "1.00", nullishD p.currency "USD"⟩ with
  | ok x =>
    simp [initiateOnChainTransfer, hm] at hc
    exact ⟨_, hc⟩
  | error e =>
    simp [initiateOnChainTransfer, hm] at hc
    exact ⟨_, hc⟩

/-- Every call `initiateWithdrawal` issues is a business payout. -/
theorem initiateWithdrawal_calls (w : World) (u : String) (p : WithdrawalParams) :
    ∀ c ∈ (initiateWithdrawal w u p).2, ∃ q, c = ApiCall.createBusinessPayout q := by
  intro c hc
  cases hm : w.createBusinessPayout
      ⟨u, nullishD p.destinationType "wire", p.bankAccountId,
        nullishD p.amount "10.00", nullishD p.currency "USD"⟩ with
  | ok x =>
    simp [initiateWithdrawal, hm] at hc
    exact ⟨_, hc⟩
  | error e =>
    simp [initiateWithdrawal, hm] at hc
    exact ⟨_, hc⟩

/-- Every call `createExpressRoute` issues is an express-route call. -/
theorem createExpressRoute_calls (w : World) (u : String) (p : RouteCreateParams) :
    ∀ c ∈ (createExpressRoute w u p).2,
      (∃ q, c = ApiCall.createExpressRoute q) ∨ c = ApiCall.listExpressRoutes := by
  intro c hc
  cases hm : w.createExpressRoute
      ⟨u, p.receiptAddressId, p.bankAccountId,
        nullishD p.destinationType "wire", nullishD p.currency "USD"⟩ with
  | ok x =>
    simp [createExpressRoute, hm] at hc
    exact Or.inl ⟨_, hc⟩
  | error e =>
    by_cases hcond : (includesSub e "already" || includesSub e "2023") = true
    · cases hl : w.listExpressRoutes with
      | error e2 =>
        simp [createExpressRoute, hm, hcond, hl] at hc
        rcases hc with hc | hc
        · exact Or.inl ⟨_, hc⟩
        · exact Or.inr hc
      | ok ex =>
        cases ho : (ex.data.bind
            (List.find? (fun r => r.receiptAddressId == p.receiptAddressId))).orElse
            (fun _ => ex.data.bind List.head?) with
        | some m =>
          simp [createExpressRoute, hm, hcond, hl, ho] at hc
          rcases hc with hc | hc
          · exact Or.inl ⟨_, hc⟩
          · exact Or.inr hc
        | none =>
          simp [createExpressRoute, hm, hcond, hl, ho] at hc
          rcases hc with hc | hc
          · exact Or.inl ⟨_, hc⟩
          · exact Or.inr hc
    · simp [createExpressRoute, hm, hcond] at hc
      exact Or.inl ⟨_, hc⟩

/-- The trace carried by a `runFullFlow` step outcome, error or success. -/
def stepTrace {α : Type} : Except (Msg × Trace) (α × Trace) → Trace
  | .error (_, t) => t
  | .ok (_, t) => t

/-- Every call of step 1 of `runFullFlow` is a wire-bank-account call. -/
theorem fullFlowBankStep_calls (w : World) (E : UuidSupply) (p : FullFlowParams) :
    ∀ c ∈ stepTrace (fullFlowBankStep w E p),
      (∃ q, c = ApiCall.createWireBankAccount q) ∨ c = ApiCall.listWireBankAccounts := by
  intro c hc
  have hlbc := linkBankAccount_calls w E.bankUuid ⟨none, none⟩
  rcases hlb : linkBankAccount w E.bankUuid ⟨none, none⟩ with ⟨r, t⟩
  rw [hlb] at hlbc
  simp only at hlbc
  cases htr : truthyOptStr p.existingBankId with
  | some bid => simp [fullFlowBankStep, htr, stepTrace] at hc
  | none =>
    cases r with
    | error e =>
      simp [fullFlowBankStep, htr, hlb, stepTrace] at hc
      exact hlbc c hc
    | ok bank =>
      cases hid : truthyOptStr (bank.data.bind Resource.id) with
      | none =>
        simp [fullFlowBankStep, htr, hlb, hid, stepTrace] at hc
        exact hlbc c hc
      | some b2 =>
        simp [fullFlowBankStep, htr, hlb, hid, stepTrace] at hc
        exact hlbc c hc

/-- Every call of step 2 of `runFullFlow` is a deposit-address call. -/
theorem fullFlowReceiptStep_calls (w : World) (E : UuidSupply) (p : FullFlowParams) :
    ∀ c ∈ stepTrace (fullFlowReceiptStep w E p),
      (∃ q, c = ApiCall.createDepositAddress q) ∨
        c = ApiCall.listBusinessDepositAddresses := by
  intro c hc
  have hlrc := linkReceiptAddress_calls w E.receiptUuid ⟨some (nullishD p.chain "ETH"), none⟩
  rcases hlr : linkReceiptAddress w E.receiptUuid ⟨some (nullishD p.chain "ETH"), none⟩
    with ⟨r, t⟩
  rw [hlr] at hlrc
  simp only at hlrc
  by_cases hgiven :
      (truthyStr p.existingDepositAddressId && truthyStr p.existingDepositAddress) = true
  · simp [fullFlowReceiptStep, hgiven, stepTrace] at hc
  · cases r with
    | error e =>
      simp [fullFlowReceiptStep, hgiven, hlr, stepTrace] at hc
      exact hlrc c hc
    | ok addr =>
      cases ha : truthyOptStr (addr.data.bind Resource.address) with
      | none =>
        simp [fullFlowReceiptStep, hgiven, hlr, ha, stepTrace] at hc
        exact hlrc c hc
      | some a =>
        simp [fullFlowReceiptStep, hgiven, hlr, ha, stepTrace] at hc
        exact hlrc c hc

/-- When the wire instructions lack a truthy tracking ref, or a truthy
beneficiary account number, steps 3-7 abort right after the instructions
fetch with the corresponding descriptive error. -/
theorem runFullFlowFromInstructions_aborts (w : World) (E : UuidSupply)
    (p : FullFlowParams) (bank : String) (daid : Option String) (da : String)
    (t0 : Trace) (env : Envelope)
    (hok : w.getWireBankAccountInstructions bank = .ok env) :
    (truthyOptStr (env.data.bind Resource.trackingRef) = none →
      runFullFlowFromInstructions w E p bank daid da t0 =
        (.error noTrackingRefMsg,
          t0 ++ [ApiCall.getWireBankAccountInstructions bank])) ∧
    (∀ s, truthyOptStr (env.data.bind Resource.trackingRef) = some s →
      truthyOptStr (env.data.bind Resource.beneficiaryAccountNumber) = none →
      runFullFlowFromInstructions w E p bank daid da t0 =
        (.error noBeneficiaryMsg,
          t0 ++ [ApiCall.getWireBankAccountInstructions bank])) := by
  constructor
  · intro htr
    simp [runFullFlowFromInstructions, hok, htr]
  · intro s htr hben
    simp [runFullFlowFromInstructions, hok, htr, hben]

/-- Any call step 7 adds to the trace is a mock-or-later call. -/
theorem runFullFlowStep7_mem (w : World) (E : UuidSupply) (bank : String)
    (daid : Option String) (t5 : Trace) :
    ∀ c ∈ (runFullFlowStep7 w E bank daid t5).2,
      c ∈ t5 ∨ isMockOrLaterCall c = true := by
  intro c hc
  have hcalls := createExpressRoute_calls w E.routeUuid ⟨daid, bank, none, none⟩
  rcases hr : createExpressRoute w E.routeUuid ⟨daid, bank, none, none⟩ with ⟨rr, rt⟩
  rw [hr] at hcalls
  simp only at hcalls
  cases rr with
  | error e =>
    simp [runFullFlowStep7, hr] at hc
    rcases hc with hc | hc
    · exact Or.inl hc
    · rcases hcalls _ hc with ⟨q, rfl⟩ | rfl <;> exact Or.inr rfl
  | ok v =>
    simp [runFullFlowStep7, hr] at hc
    rcases hc with hc | hc
    · exact Or.inl hc
    · rcases hcalls _ hc with ⟨q, rfl⟩ | rfl <;> exact Or.inr rfl

/-- Any call steps 6-7 add to the trace is a mock-or-later call. -/
theorem runFullFlowStep6_mem (w : World) (E : UuidSupply) (bank : String)
    (daid : Option String) (t4 : Trace) :
    ∀ c ∈ (runFullFlowStep6 w E bank daid t4).2,
      c ∈ t4 ∨ isMockOrLaterCall c = true := by
  intro c hc
  have hcalls := initiateWithdrawal_calls w E.withdrawalUuid
    ⟨bank, some "10.00", none, none⟩
  rcases hwd : initiateWithdrawal w E.withdrawalUuid ⟨bank, some "10.00", none, none⟩
    with ⟨wr, wt⟩
  rw [hwd] at hcalls
  simp only at hcalls
  cases wr with
  | error e =>
    simp [runFullFlowStep6, hwd] at hc
    rcases hc with hc | hc
    · exact Or.inl hc
    · rcases hcalls _ hc with ⟨q, rfl⟩
      exact Or.inr rfl
  | ok v =>
    simp [runFullFlowStep6, hwd] at hc
    rcases runFullFlowStep7_mem w E bank daid _ c hc with hc | hc
    · rcases List.mem_append.mp hc with hc | hc
      · exact Or.inl hc
      · rcases hcalls _ hc with ⟨q, rfl⟩
        exact Or.inr rfl
    · exact Or.inr hc

/-- Any call steps 5-7 add to the trace is a mock-or-later call. -/
theorem runFullFlowStep5_mem (w : World) (E : UuidSupply) (p : FullFlowParams)
    (bank : String) (daid : Option String) (t3 : Trace) :
    ∀ c ∈ (runFullFlowStep5 w E p bank daid t3).2,
      c ∈ t3 ∨ isMockOrLaterCall c = true := by
  intro c hc
  cases hrec : truthyOptStr p.existingRecipientId with
  | none =>
    simp [runFullFlowStep5, hrec] at hc
    exact runFullFlowStep6_mem w E bank daid _ c hc
  | some rid =>
    have hcalls := initiateOnChainTransfer_calls w E.transferUuid ⟨rid, some "1.00", none⟩
    rcases htr : initiateOnChainTransfer w E.transferUuid ⟨rid, some "1.00", none⟩
      with ⟨rr, rt⟩
    rw [htr] at hcalls
    simp only at hcalls
    cases rr with
    | error e =>
      simp [runFullFlowStep5, hrec, htr] at hc
      rcases hc with hc | hc
      · exact Or.inl hc
      · rcases hcalls _ hc with ⟨q, rfl⟩
        exact Or.inr rfl
    | ok v =>
      simp [runFullFlowStep5, hrec, htr] at hc
      rcases runFullFlowStep6_mem w E bank daid _ c hc with hc | hc
      · rcases List.mem_append.mp hc with hc | hc
        · exact Or.inl hc
        · rcases hcalls _ hc with ⟨q, rfl⟩
          exact Or.inr rfl
      · exact Or.inr hc

/-- Any call steps 4-7 add to the trace is a mock-or-later call. -/
theorem runFullFlowStep4_mem (w : World) (E : UuidSupply) (p : FullFlowParams)
    (bank : String) (daid : Option String) (da : String) (t2 : Trace) :
    ∀ c ∈ (runFullFlowStep4 w E p bank daid da t2).2,
      c ∈ t2 ∨ isMockOrLaterCall c = true := by
  intro c hc
  have hcalls := initiateOnChainDeposit_calls w
    ⟨da, some (nullishD p.chain "ETH"), some (nullishD p.amount "10.00")⟩
  rcases hcd : initiateOnChainDeposit w
      ⟨da, some (nullishD p.chain "ETH"), some (nullishD p.amount "10.00")⟩
    with ⟨cr, ct⟩
  rw [hcd] at hcalls
  simp only at hcalls
  cases cr with
  | error e =>
    simp [runFullFlowStep4, hcd] at hc
    rcases hc with hc | hc
    · exact Or.inl hc
    · rcases hcalls _ hc with ⟨q, rfl⟩
      exact Or.inr rfl
  | ok v =>
    simp [runFullFlowStep4, hcd] at hc
    rcases runFullFlowStep5_mem w E p bank daid _ c hc with hc | hc
    · rcases List.mem_append.mp hc with hc | hc
      · exact Or.inl hc
      · rcases hcalls _ hc with ⟨q, rfl⟩
        exact Or.inr rfl
    · exact Or.inr hc

/-- Any call steps 3-7 add to the trace is either the single
wire-instructions fetch (with the step-1 bank account id) or a mock-or-later
call. -/
theorem runFullFlowFromInstructions_mem (w : World) (E : UuidSupply)
    (p : FullFlowParams) (bank : String) (daid : Option String) (da : String)
    (t0 : Trace) :
    ∀ c ∈ (runFullFlowFromInstructions w E p bank daid da t0).2,
      c ∈ t0 ∨ c = ApiCall.getWireBankAccountInstructions bank ∨
        isMockOrLaterCall c = true := by
  intro c hc
  cases hok : w.getWireBankAccountInstructions bank with
  | error e =>
    simp [runFullFlowFromInstructions, hok] at hc
    rcases hc with hc | hc
    · exact Or.inl hc
    · exact Or.inr (Or.inl hc)
  | ok inst =>
    cases htr : truthyOptStr (inst.data.bind Resource.trackingRef) with
    | none =>
      simp [runFullFlowFromInstructions, hok, htr] at hc
      rcases hc with hc | hc
      · exact Or.inl hc
      · exact Or.inr (Or.inl hc)
    | some tr =>
      cases hben : truthyOptStr (inst.data.bind Resource.beneficiaryAccountNumber) with
      | none =>
        simp [runFullFlowFromInstructions, hok, htr, hben] at hc
        rcases hc with hc | hc
        · exact Or.inl hc
        · exact Or.inr (Or.inl hc)
      | some acct =>
        have hcalls := initiateMockDeposit_calls w
          ⟨tr, some (nullishD p.amount "100.00"), some acct⟩
        rcases hmock : initiateMockDeposit w
            ⟨tr, some (nullishD p.amount "100.00"), some acct⟩ with ⟨mr, mt⟩
        rw [hmock] at hcalls
        simp only at hcalls
        cases mr with
        | error e =>
          simp [runFullFlowFromInstructions, hok, htr, hben, hmock] at hc
          rcases hc with hc | hc | hc
          · exact Or.inl hc
          · exact Or.inr (Or.inl hc)
          · rcases hcalls _ hc with ⟨q, rfl⟩
            exact Or.inr (Or.inr rfl)
        | ok mv =>
          simp [runFullFlowFromInstructions, hok, htr, hben, hmock] at hc
          rcases runFullFlowStep4_mem w E p bank daid da _ c hc with hc | hc
          · rcases List.mem_append.mp hc with hc | hc
            · exact Or.inl hc
            · rcases List.mem_cons.mp hc with hc | hc
              · exact Or.inr (Or.inl hc)
              · rcases hcalls _ hc with ⟨q, rfl⟩
                exact Or.inr (Or.inr rfl)
          · exact Or.inr (Or.inr hc)

/-- The only wire-instructions call steps 3-7 can issue targets the bank
account id obtained in step 1. -/
theorem runFullFlowFromInstructions_getWire_id (w : World) (E : UuidSupply)
    (p : FullFlowParams) (bank : String) (daid : Option String) (da : String)
    (t0 : Trace) (bid : String)
    (h0 : ∀ c ∈ t0, ∀ i, c ≠ ApiCall.getWireBankAccountInstructions i)
    (hmem : ApiCall.getWireBankAccountInstructions bid ∈
      (runFullFlowFromInstructions w E p bank daid da t0).2) :
    bid = bank := by
  rcases runFullFlowFromInstructions_mem w E p bank daid da t0 _ hmem with h | h | h
  · exact absurd rfl (h0 _ h bid)
  · exact (ApiCall.getWireBankAccountInstructions.injEq _ _).mp h
  · simp [isMockOrLaterCall] at h

/-- C7: in every execution of `runFullFlow` in which the fetched wire
instructions lack a truthy tracking ref or a truthy beneficiary account
number, the flow aborts with the corresponding descriptive error and never
issues the mock wire deposit or any later step's call. -/
theorem runFullFlow_aborts_on_missing_wire_fields
    (w : World) (E : UuidSupply) (p : FullFlowParams) (bid : String) (env : Envelope)
    (hmem : ApiCall.getWireBankAccountInstructions bid ∈ (runFullFlow w E p).2)
    (hok : w.getWireBankAccountInstructions bid = .ok env)
    (hmiss : truthyOptStr (env.data.bind Resource.trackingRef) = none ∨
      truthyOptStr (env.data.bind Resource.beneficiaryAccountNumber) = none) :
    ((runFullFlow w E p).1 = .error noTrackingRefMsg ∨
      (runFullFlow w E p).1 = .error noBeneficiaryMsg) ∧
    (∀ c ∈ (runFullFlow w E p).2, isMockOrLaterCall c = false) := by
  have hbankc := fullFlowBankStep_calls w E p
  rcases hb : fullFlowBankStep w E p with ⟨e, t⟩ | ⟨bank, tBank⟩
  · rw [hb] at hbankc
    simp only [stepTrace] at hbankc
    simp [runFullFlow, hb] at hmem
    rcases hbankc _ hmem with ⟨q, hq⟩ | hq <;> exact ApiCall.noConfusion hq
  · rw [hb] at hbankc
    simp only [stepTrace] at hbankc
    have hrecc := fullFlowReceiptStep_calls w E p
    rcases hr : fullFlowReceiptStep w E p with ⟨e2, t2⟩ | ⟨⟨daid, da⟩, tAddr⟩
    · rw [hr] at hrecc
      simp only [stepTrace] at hrecc
      simp [runFullFlow, hb, hr] at hmem
      rcases hmem with hmem | hmem
      · rcases hbankc _ hmem with ⟨q, hq⟩ | hq <;> exact ApiCall.noConfusion hq
      · rcases hrecc _ hmem with ⟨q, hq⟩ | hq <;> exact ApiCall.noConfusion hq
    · rw [hr] at hrecc
      simp only [stepTrace] at hrecc
      have h0 : ∀ c ∈ tBank ++ tAddr, ∀ i,
          c ≠ ApiCall.getWireBankAccountInstructions i := by
        intro c hc i
        rcases List.mem_append.mp hc with hc | hc
        · rcases hbankc _ hc with ⟨q, rfl⟩ | rfl <;> exact fun h => ApiCall.noConfusion h
        · rcases hrecc _ hc with ⟨q, rfl⟩ | rfl <;> exact fun h => ApiCall.noConfusion h
      have hclean : ∀ c ∈ tBank ++ tAddr, isMockOrLaterCall c = false := by
        intro c hc
        rcases List.mem_append.mp hc with hc | hc
        · rcases hbankc _ hc with ⟨q, rfl⟩ | rfl <;> rfl
        · rcases hrecc _ hc with ⟨q, rfl⟩ | rfl <;> rfl
      simp only [runFullFlow] at hmem ⊢
      simp [hb, hr] at hmem ⊢
      have hbid : bid = bank :=
        runFullFlowFromInstructions_getWire_id w E p bank daid da _ bid h0 hmem
      subst hbid
      have habort :=
        runFullFlowFromInstructions_aborts w E p bid daid da (tBank ++ tAddr) env hok
      rcases htr : truthyOptStr (env.data.bind Resource.trackingRef) with _ | str
      · have heq := habort.1 htr
        rw [heq]
        refine ⟨Or.inl rfl, ?_⟩
        intro c hc
        rcases List.mem_append.mp hc with hc | hc
        · exact hclean c hc
        · rw [List.mem_singleton] at hc
          subst hc
          rfl
      · rcases hmiss with hmiss | hmiss
        · rw [htr] at hmiss
          exact Option.noConfusion hmiss
        · have heq := habort.2 str htr hmiss
          rw [heq]
          refine ⟨Or.inr rfl, ?_⟩
          intro c hc
          rcases List.mem_append.mp hc with hc | hc
          · exact hclean c hc
          · rw [List.mem_singleton] at hc
            subst hc
            rfl

/-- The fixed uuid samples of the C7 scenario. -/
def uuidSupply0 : UuidSupply := ⟨"uu-1", "uu-2", "uu-3", "uu-4", "uu-5"⟩

/-- Wire instructions come back without a tracking ref. -/
def noTrackingWorld : World :=
  { okWorld with
    getWireBankAccountInstructions := fun _ =>
      .ok ⟨some { beneficiaryAccountNumber := some "99988776" }⟩ }

/-- C7 witness: under a world whose wire instructions lack the tracking
ref, `runFullFlow` ends in one of the two descriptive abort errors. -/
theorem runFullFlow_missing_trackingRef_witness :
    (runFullFlow noTrackingWorld uuidSupply0 {}).1 = .error noTrackingRefMsg ∨
    (runFullFlow noTrackingWorld uuidSupply0 {}).1 = .error noBeneficiaryMsg :=
  (runFullFlow_aborts_on_missing_wire_fields noTrackingWorld uuidSupply0 {} "bank-1"
    ⟨some { beneficiaryAccountNumber := some "99988776" }⟩
    (by decide) rfl (Or.inl rfl)).1

/-- A fetch oracle that always answers 200 with an empty data object. -/
def fetchOk : SentRequest → FetchResponse :=
  fun _ => ⟨true, 200, .ok "\x7b\"data\":[]\x7d", "OK"⟩

/-- C9 counterexample: the HTTPS check inspects `baseUrl ++ endpoint`, not
the base URL itself, so the configured base URL `"https:/"` — which does not
start with `https://` — still lets the request through: a fetch is sent. -/
theorem request_nonHttps_base_can_still_fetch :
    jsStartsWith "https:/" "https://" = false ∧
    (request ⟨"test-key", "https:/"⟩ "/v1/balances" [] fetchOk).2 ≠ [] := by
  constructor
  · decide
  · decide

/-- C9 amended: a request is refused (before `fetch`) exactly when the full
URL `baseUrl ++ endpoint` does not start with `https://` — in particular any
non-HTTPS base URL that does not complete to the prefix is refused — and
every request actually sent by a client method (all of which pass no extra
headers) carries the bearer authorization header and the JSON content-type
header. -/
theorem request_https_check_and_headers
    (cfg : ClientConfig) (endpoint : String) (doFetch : SentRequest → FetchResponse) :
    (jsStartsWith (cfg.baseUrl ++ endpoint) "https://" = false →
      request cfg endpoint [] doFetch = (.error httpsRequiredMsg, [])) ∧
    (∀ r ∈ (request cfg endpoint [] doFetch).2,
      r.headers = baseHeaders cfg.apiKey ∧
      ("Authorization", "Bearer " ++ cfg.apiKey) ∈ r.headers ∧
      ("Content-Type", "application/json") ∈ r.headers) := by
  constructor
  · intro hs
    simp [request, hs]
  · intro r hr
    by_cases hs : jsStartsWith (cfg.baseUrl ++ endpoint) "https://" = false
    · simp [request, hs] at hr
    · by_cases hro : (doFetch ⟨cfg.baseUrl ++ endpoint,
          spreadHeaders (baseHeaders cfg.apiKey) []⟩).ok = false
      · simp [request, hs, hro] at hr
        subst hr
        refine ⟨by simp [spreadHeaders], ?_, ?_⟩ <;>
          simp [spreadHeaders, baseHeaders]
      · cases hb2 : (doFetch ⟨cfg.baseUrl ++ endpoint,
            spreadHeaders (baseHeaders cfg.apiKey) []⟩).body with
        | ok b =>
          simp [request, hs, hro, hb2] at hr
          subst hr
          refine ⟨by simp [spreadHeaders], ?_, ?_⟩ <;>
            simp [spreadHeaders, baseHeaders]
        | error e =>
          simp [request, hs, hro, hb2] at hr
          subst hr
          refine ⟨by simp [spreadHeaders], ?_, ?_⟩ <;>
            simp [spreadHeaders, baseHeaders]

/-- C9 amended witness: an `http://` base URL is refused with no fetch, and
the request sent under the sandbox HTTPS base URL carries exactly the bearer
and JSON content-type headers. -/
theorem request_https_check_witness :
    request ⟨"test-key", "http://api.example.com"⟩ "/v1/balances" [] fetchOk =
      (.error httpsRequiredMsg, []) ∧
    ((⟨"https://api-sandbox.circle.com/v1/balances", baseHeaders "test-key"⟩ :
        SentRequest).headers = baseHeaders "test-key" ∧
      ("Authorization", "Bearer " ++ "test-key") ∈
        (⟨"https://api-sandbox.circle.com/v1/balances", baseHeaders "test-key"⟩ :
          SentRequest).headers ∧
      ("Content-Type", "application/json") ∈
        (⟨"https://api-sandbox.circle.com/v1/balances", baseHeaders "test-key"⟩ :
          SentRequest).headers) :=
  ⟨(request_https_check_and_headers ⟨"test-key", "http://api.example.com"⟩
      "/v1/balances" fetchOk).1 (by decide),
   (request_https_check_and_headers ⟨"test-key", "https://api-sandbox.circle.com"⟩
      "/v1/balances" fetchOk).2
      ⟨"https://api-sandbox.circle.com/v1/balances", baseHeaders "test-key"⟩
      (by decide)⟩

/-- The map `Nat.digitChar` is injective on decimal digits. -/
theorem digitChar_inj_lt : ∀ a < 10, ∀ b < 10, Nat.digitChar a = Nat.digitChar b → a = b := by
  decide

/-- Mapping `Nat.digitChar` over decimal-digit lists is injective. -/
theorem map_digitChar_cancel :
    ∀ (l1 l2 : List Nat), (∀ d ∈ l1, d < 10) → (∀ d ∈ l2, d < 10) →
      l1.map Nat.digitChar = l2.map Nat.digitChar → l1 = l2 := by
  intro l1
  induction l1 with
  | nil =>
    intro l2 _ _ h
    cases l2 with
    | nil => rfl
    | cons b t => simp at h
  | cons a t ih =>
    intro l2 h1 h2 h
    cases l2 with
    | nil => simp at h
    | cons b t2 =>
      simp only [List.map_cons, List.cons.injEq] at h
      have hab : a = b :=
        digitChar_inj_lt a (h1 a (List.mem_cons_self a t))
          b (h2 b (List.mem_cons_self b t2)) h.1
      subst hab
      have ht : t = t2 :=
        ih t2 (fun d hd => h1 d (List.mem_cons_of_mem _ hd))
          (fun d hd => h2 d (List.mem_cons_of_mem _ hd)) h.2
      rw [ht]

/-- With enough fuel, `digitsRev` computes `Nat.digits 10`. -/
theorem digitsRev_eq_digits : ∀ (fuel n : Nat), n ≤ fuel →
    digitsRev fuel n = Nat.digits 10 n := by
  intro fuel
  induction fuel with
  | zero =>
    intro n hn
    have : n = 0 := Nat.le_zero.mp hn
    subst this
    simp [digitsRev]
  | succ f ih =>
    intro n hn
    cases n with
    | zero => simp [digitsRev]
    | succ m =>
      have h10 : (1 : ℕ) < 10 := by norm_num
      rw [show digitsRev (f + 1) (m + 1) =
          ((m + 1) % 10) :: digitsRev f ((m + 1) / 10) from rfl]
      rw [Nat.digits_def' h10 (Nat.succ_pos m)]
      congr 1
      apply ih
      have hlt : (m + 1) / 10 < m + 1 := Nat.div_lt_self (Nat.succ_pos m) (by norm_num)
      omega

/-- The map `List.asString` is injective. -/
theorem asString_inj {l1 l2 : List Char} (h : l1.asString = l2.asString) : l1 = l2 := by
  have := congrArg String.data h
  simpa [List.asString] using this

/-- The decimal rendering of a natural number is injective: two renderings
agree exactly when the numbers do. -/
theorem decimalString_inj {n m : Nat} (h : decimalString n = decimalString m) : n = m := by
  have h10 : (1 : ℕ) < 10 := by norm_num
  by_cases hn : n = 0 <;> by_cases hm : m = 0
  · rw [hn, hm]
  · exfalso
    subst hn
    rw [decimalString, if_pos rfl, decimalString, if_neg hm] at h
    rw [digitsRev_eq_digits m m (Nat.le_refl m)] at h
    have hdata := congrArg String.data h
    simp only [List.asString] at hdata
    have hdata2 : ((Nat.digits 10 m).reverse.map Nat.digitChar) = ['0'] := hdata.symm
    have hlen := congrArg List.length hdata2
    simp only [List.length_map, List.length_reverse, List.length_cons,
      List.length_nil] at hlen
    rcases hl : Nat.digits 10 m with _ | ⟨d, t⟩
    · rw [hl] at hlen
      simp at hlen
    · rw [hl] at hlen hdata2
      cases t with
      | cons d2 t2 => simp at hlen
      | nil =>
        simp only [List.reverse_cons, List.reverse_nil, List.nil_append,
          List.map_cons, List.map_nil, List.cons.injEq, and_true] at hdata2
        have hd10 : d < 10 := Nat.digits_lt_base h10 (by rw [hl]; exact List.mem_singleton.mpr rfl)
        have hd0 : d = 0 := digitChar_inj_lt d hd10 0 (by norm_num) (by simpa using hdata2)
        subst hd0
        have := Nat.ofDigits_digits 10 m
        rw [hl] at this
        simp [Nat.ofDigits] at this
        exact hm this.symm
  · exfalso
    subst hm
    rw [decimalString, if_neg hn, decimalString, if_pos rfl] at h
    rw [digitsRev_eq_digits n n (Nat.le_refl n)] at h
    have hdata := congrArg String.data h
    simp only [List.asString] at hdata
    have hdata2 : ((Nat.digits 10 n).reverse.map Nat.digitChar) = ['0'] := hdata
    have hlen := congrArg List.length hdata2
    simp only [List.length_map, List.length_reverse, List.length_cons,
      List.length_nil] at hlen
    rcases hl : Nat.digits 10 n with _ | ⟨d, t⟩
    · rw [hl] at hlen
      simp at hlen
    · rw [hl] at hlen hdata2
      cases t with
      | cons d2 t2 => simp at hlen
      | nil =>
        simp only [List.reverse_cons, List.reverse_nil, List.nil_append,
          List.map_cons, List.map_nil, List.cons.injEq, and_true] at hdata2
        have hd10 : d < 10 := Nat.digits_lt_base h10 (by rw [hl]; exact List.mem_singleton.mpr rfl)
        have hd0 : d = 0 := digitChar_inj_lt d hd10 0 (by norm_num) (by simpa using hdata2)
        subst hd0
        have := Nat.ofDigits_digits 10 n
        rw [hl] at this
        simp [Nat.ofDigits] at this
        exact hn this.symm
  · rw [decimalString, if_neg hn, decimalString, if_neg hm] at h
    rw [digitsRev_eq_digits n n (Nat.le_refl n),
      digitsRev_eq_digits m m (Nat.le_refl m)] at h
    have hmap := asString_inj h
    have hrev := map_digitChar_cancel _ _
      (fun d hd => Nat.digits_lt_base h10 (List.mem_reverse.mp hd))
      (fun d hd => Nat.digits_lt_base h10 (List.mem_reverse.mp hd)) hmap
    have hdig : Nat.digits 10 n = Nat.digits 10 m := by
      have := congrArg List.reverse hrev
      simpa using this
    exact Nat.digits_inj_iff.mp hdig

/-- A common prefix cancels in string equality. -/
theorem string_append_cancel_left {p s t : String} (h : p ++ s = p ++ t) : s = t := by
  have hd := congrArg String.data h
  simp only [String.data_append] at hd
  have := List.append_cancel_left hd
  cases s
  cases t
  exact congrArg String.mk this

/-- C4 counterexample: two successive invocations within the same
millisecond observe the same `Date.now()` value and generate identical
timestamp-based idempotency keys. -/
theorem timestamp_keys_collide_same_millisecond :
    abIdempotencyKey 1700000000000 = abIdempotencyKey 1700000000000 ∧
    abIdempotencyKey 1700000000000 = "ab-1700000000000" ∧
    transferIdempotencyKey 1700000000000 = "transfer-1700000000000" := by
  refine ⟨rfl, ?_, ?_⟩ <;> decide

/-- C4 amended: an idempotency key is fresh exactly when its entropy sample
is: the timestamp-based keys of the two `createTransfer` steps and of
`createBusinessPayout` differ iff the `Date.now()` millisecond values
differ, and the UUID-based keys differ iff the sampled UUIDs differ. -/
theorem idempotency_keys_fresh_iff_entropy_fresh :
    (∀ t1 t2 : Nat, (abIdempotencyKey t1 = abIdempotencyKey t2 ↔ t1 = t2)) ∧
    (∀ t1 t2 : Nat,
      (transferIdempotencyKey t1 = transferIdempotencyKey t2 ↔ t1 = t2)) ∧
    (∀ t1 t2 : Nat,
      (businessPayoutIdempotencyKey t1 = businessPayoutIdempotencyKey t2 ↔ t1 = t2)) ∧
    (∀ u1 u2 : String, (uuidIdempotencyKey u1 = uuidIdempotencyKey u2 ↔ u1 = u2)) := by
  refine ⟨?_, ?_, ?_, ?_⟩
  · intro t1 t2
    constructor
    · intro h
      exact decimalString_inj (string_append_cancel_left (p := "ab-") h)
    · intro h
      rw [h]
  · intro t1 t2
    constructor
    · intro h
      exact decimalString_inj (string_append_cancel_left (p := "transfer-") h)
    · intro h
      rw [h]
  · intro t1 t2
    constructor
    · intro h
      exact decimalString_inj (string_append_cancel_left (p := "business-payout-") h)
    · intro h
      rw [h]
  · intro u1 u2
    exact Iff.rfl

end CirclePlayground
